import Mathlib

/-!
Shallow embedding of the Ticket-of-problems Flask application
(`app.py`, `models.py`) and proofs about its handlers.

Request bodies are modelled as association lists of string key/value
pairs (`JsonObj`); a request whose body parses to no JSON is `none`.
The database is a list of tickets; timestamps are natural numbers.
Each Flask view function becomes a Lean function from the session,
the request data and the current store to a `HandlerResult` holding
the HTTP status, the JSON payload pieces and the store after the
request.
-/

namespace TicketApp

/-- Characters removed by Python `str.strip()` (the ASCII whitespace set). -/
def isPySpace (c : Char) : Bool :=
  c == ' ' || c == '\t' || c == '\n' || c == '\r' || c == '\x0B' || c == '\x0C'

/-- Python `s.strip()`: drop leading and trailing whitespace. -/
def pyStrip (s : String) : String :=
  ⟨((s.data.dropWhile isPySpace).reverse.dropWhile isPySpace).reverse⟩

/-- A parsed JSON object body: keys mapped to string values. -/
abbrev JsonObj := List (String × String)

/-- Python `data[k]` / `data.get(k)`: first binding of the key, if any. -/
def jsonGet (d : JsonObj) (k : String) : Option String :=
  (d.find? fun p => p.1 == k).map fun p => p.2

/-- Python `data.get(k, dflt)`. -/
def jsonGetD (d : JsonObj) (k dflt : String) : String :=
  (jsonGet d k).getD dflt

/-- Python `k in data`. -/
def jsonHasKey (d : JsonObj) (k : String) : Bool :=
  (jsonGet d k).isSome

/-- Hardcoded reporter allow-list (`REPORTERS` in app.py). -/
def REPORTERS : List String := ["Alice", "Bob"]

/-- Hardcoded admin allow-list (`ADMINS` in app.py). -/
def ADMINS : List String := ["Admin1", "Admin2"]

/-- `Ticket.valid_statuses()` from models.py. -/
def valid_statuses : List String := ["open", "in_progress", "closed"]

/-- `Ticket.valid_priorities()` from models.py. -/
def valid_priorities : List String := ["low", "medium", "high"]

/-- The two session keys the app reads and writes. -/
structure Session where
  user_name : Option String
  user_role : Option String
deriving DecidableEq, Repr

/-- The pair returned by `current_user()`. -/
structure User where
  name : String
  role : String
deriving DecidableEq, Repr

/-- `current_user()`: session values with the built-in defaults. -/
def current_user (s : Session) : User :=
  { name := s.user_name.getD "Alice", role := s.user_role.getD "Reporter" }

/-- `is_admin()`. -/
def is_admin (s : Session) : Bool :=
  (current_user s).role == "Admin"

/-- `is_reporter()`. -/
def is_reporter (s : Session) : Bool :=
  (current_user s).role == "Reporter"

/-- Python `name in allowlist` where `name` may be absent (`None`). -/
def inAllow (x : Option String) (l : List String) : Bool :=
  match x with
  | some n => l.contains n
  | none => false

/-- Result of the `set_role` view: the session afterwards and whether
the `Invalid user or role` flash was emitted. -/
structure SetRoleResult where
  session : Session
  flashed_error : Bool
deriving DecidableEq, Repr

/-- The `set_role` view (app.py lines 107-131). -/
def set_role (s : Session) (user_name user_role : Option String) : SetRoleResult :=
  if user_role = some "Reporter" ∧ inAllow user_name REPORTERS then
    { session := { user_name := user_name, user_role := some "Reporter" }, flashed_error := false }
  else if user_role = some "Admin" ∧ inAllow user_name ADMINS then
    { session := { user_name := user_name, user_role := some "Admin" }, flashed_error := false }
  else if user_role = some "Admin" then
    { session := { user_name := some "Admin1", user_role := some "Admin" }, flashed_error := false }
  else if user_role = some "Reporter" then
    { session := { user_name := some "Alice", user_role := some "Reporter" }, flashed_error := false }
  else
    { session := s, flashed_error := true }

/-- Title checks of `validate_ticket_data` (errors appended for the title field). -/
def titleErrors (data : JsonObj) : List String :=
  let title := pyStrip (jsonGetD data "title" "")
  if title = "" then ["Title is required"]
  else if title.length < 3 ∨ title.length > 120 then
    ["Title must be between 3 and 120 characters"]
  else []

/-- Description checks of `validate_ticket_data`. -/
def descriptionErrors (data : JsonObj) : List String :=
  let description := pyStrip (jsonGetD data "description" "")
  if description = "" then ["Description is required"]
  else if description.length < 1 ∨ description.length > 1000 then
    ["Description must be between 1 and 1000 characters"]
  else []

/-- Priority check of `validate_ticket_data`. -/
def priorityErrors (data : JsonObj) : List String :=
  let priority := jsonGetD data "priority" ""
  if priority ∈ valid_priorities then []
  else ["Priority must be one of: " ++ String.intercalate ", " valid_priorities]

/-- `validate_ticket_data(data)`: the error messages, collected in order. -/
def validate_ticket_data (data : JsonObj) : List String :=
  titleErrors data ++ descriptionErrors data ++ priorityErrors data

/-- The persisted `Ticket` row (models.py).  Timestamps are abstract
instants (`Nat`), `none` standing for SQL NULL. -/
structure Ticket where
  id : Nat
  title : String
  description : String
  priority : String
  status : String
  reporter_name : String
  assigned_admin : Option String
  created_at : Option Nat
  updated_at : Option Nat
deriving DecidableEq, Repr

/-- The tickets table. -/
abbrev Store := List Ticket

/-- `Ticket.query.get(i)`: lookup by primary key (first matching row). -/
def getTicket (st : Store) (i : Nat) : Option Ticket :=
  match st with
  | [] => none
  | t :: ts => if t.id = i then some t else getTicket ts i

/-- Commit of an in-place mutation of the row with primary key `i`. -/
def setTicket (st : Store) (i : Nat) (t : Ticket) : Store :=
  st.map fun u => if u.id = i then t else u

/-- Python truthiness of a nullable string column
(`if ticket.assigned_admin:`). -/
def truthyStr : Option String → Bool
  | none => false
  | some s => !(s == "")

/-- Outcome of one API request: HTTP status, the JSON payload pieces
that the handlers produce (`errors` list, ticket object, `message`),
and the store after the request. -/
structure HandlerResult where
  status : Nat
  errors : List String
  ticket : Option Ticket
  message : Option String
  store : Store
deriving DecidableEq, Repr

/-- The row inserted by `create_ticket`: raw (untrimmed) request fields,
the model defaults `status='open'` and `assigned_admin` NULL, timestamp
defaults from `datetime.utcnow`. -/
def newTicket (sess : Session) (data : JsonObj) (now nextId : Nat) : Ticket :=
  { id := nextId, title := jsonGetD data "title" "",
    description := jsonGetD data "description" "",
    priority := jsonGetD data "priority" "",
    status := "open", reporter_name := (current_user sess).name,
    assigned_admin := none,
    created_at := some now, updated_at := some now }

/-- `POST /api/tickets` (app.py `create_ticket`).  `body` is the parsed
JSON body (`none` when `request.get_json()` yields no data), `now` the
value of `datetime.utcnow()`, `nextId` the primary key the database
would assign. -/
def create_ticket (sess : Session) (body : Option JsonObj) (st : Store)
    (now nextId : Nat) : HandlerResult :=
  if ¬ is_reporter sess then
    { status := 403, errors := ["Only reporters can create tickets"],
      ticket := none, message := none, store := st }
  else
    match body with
    | none =>
      { status := 400, errors := ["No data provided"],
        ticket := none, message := none, store := st }
    | some data =>
      if data = [] then
        { status := 400, errors := ["No data provided"],
          ticket := none, message := none, store := st }
      else if validate_ticket_data data ≠ [] then
        { status := 400, errors := validate_ticket_data data,
          ticket := none, message := none, store := st }
      else
        { status := 201, errors := [], ticket := some (newTicket sess data now nextId),
          message := none, store := st ++ [newTicket sess data now nextId] }

/-- `PATCH /api/tickets/<id>/assign-self` (app.py `assign_self`). -/
def assign_self (sess : Session) (ticket_id : Nat) (st : Store) (now : Nat) :
    HandlerResult :=
  if ¬ is_admin sess then
    { status := 403, errors := ["Only admins can assign tickets"],
      ticket := none, message := none, store := st }
  else
    match getTicket st ticket_id with
    | none =>
      { status := 404, errors := [], ticket := none,
        message := some "Resource not found", store := st }
    | some t =>
      if truthyStr t.assigned_admin then
        { status := 400, errors := ["Ticket is already assigned"],
          ticket := none, message := none, store := st }
      else
        let t2 := { t with assigned_admin := some (current_user sess).name,
                           updated_at := some now }
        { status := 200, errors := [], ticket := some t2,
          message := none, store := setTicket st ticket_id t2 }

/-- `PATCH /api/tickets/<id>/status` (app.py `update_status`). -/
def update_status (sess : Session) (ticket_id : Nat) (body : Option JsonObj)
    (st : Store) (now : Nat) : HandlerResult :=
  if ¬ is_admin sess then
    { status := 403, errors := ["Only admins can update ticket status"],
      ticket := none, message := none, store := st }
  else
    match getTicket st ticket_id with
    | none =>
      { status := 404, errors := [], ticket := none,
        message := some "Resource not found", store := st }
    | some t =>
      match body with
      | none =>
        { status := 400, errors := ["Status is required"],
          ticket := none, message := none, store := st }
      | some data =>
        if data = [] ∨ jsonHasKey data "status" = false then
          { status := 400, errors := ["Status is required"],
            ticket := none, message := none, store := st }
        else if ¬ jsonGetD data "status" "" ∈ valid_statuses then
          { status := 400,
            errors := ["Status must be one of: " ++ String.intercalate ", " valid_statuses],
            ticket := none, message := none, store := st }
        else
          let t2 := { t with status := jsonGetD data "status" "",
                             updated_at := some now }
          { status := 200, errors := [], ticket := some t2,
            message := none, store := setTicket st ticket_id t2 }

/-- `DELETE /api/tickets/<id>` (app.py `delete_ticket`).  The handler
has the session in scope but never consults it: `sess` is unused. -/
def delete_ticket (_sess : Session) (ticket_id : Nat) (st : Store) :
    HandlerResult :=
  match getTicket st ticket_id with
  | none =>
    { status := 404, errors := [], ticket := none,
      message := some "Resource not found", store := st }
  | some _ =>
    { status := 200, errors := [], ticket := none,
      message := some "Ticket deleted successfully",
      store := st.filter fun u => u.id != ticket_id }

/-- Descending order on `created_at` (SQL `ORDER BY created_at DESC`,
NULLs ordered last): `a` may come before `b`. -/
def beforeDesc (a b : Ticket) : Bool :=
  (b.created_at.map Nat.succ).getD 0 ≤ (a.created_at.map Nat.succ).getD 0

/-- Insertion step of the sort used by the list endpoints. -/
def insertByDesc (t : Ticket) : List Ticket → List Ticket
  | [] => [t]
  | u :: us => if beforeDesc t u then t :: u :: us else u :: insertByDesc t us

/-- Sort by `created_at` descending. -/
def sortByCreatedDesc : List Ticket → List Ticket
  | [] => []
  | t :: ts => insertByDesc t (sortByCreatedDesc ts)

/-- `GET /api/tickets` (app.py `get_tickets`): optional status and
assigned-admin filters, then ordering by `created_at` descending. -/
def get_tickets (st : Store) (status_filter admin_filter : String) : List Ticket :=
  let q := if status_filter ≠ "" then st.filter (fun t => t.status == status_filter) else st
  let q2 := if admin_filter ≠ "" then q.filter (fun t => t.assigned_admin == some admin_filter) else q
  sortByCreatedDesc q2

/-! ### Reachability through the API -/

/-- Sessions the app itself can produce: the fresh (empty) session and
anything the `set_role` view writes. -/
inductive SessionReach : Session → Prop
  | init : SessionReach { user_name := none, user_role := none }
  | set (s : Session) (n r : Option String) :
      SessionReach s → SessionReach (set_role s n r).session

/-- One mutating API request against the store, run under an
app-producible session; creation receives an unused primary key, as the
auto-increment column guarantees. -/
inductive Step : Store → Store → Prop
  | create (st : Store) (sess : Session) (body : Option JsonObj) (now nextId : Nat) :
      SessionReach sess → (∀ t ∈ st, t.id ≠ nextId) →
      Step st (create_ticket sess body st now nextId).store
  | assign (st : Store) (sess : Session) (i now : Nat) :
      SessionReach sess → Step st (assign_self sess i st now).store
  | status (st : Store) (sess : Session) (i : Nat) (body : Option JsonObj) (now : Nat) :
      SessionReach sess → Step st (update_status sess i body st now).store
  | del (st : Store) (sess : Session) (i : Nat) :
      Step st (delete_ticket sess i st).store

/-- Stores reachable from the empty database through API requests. -/
inductive Reach : Store → Prop
  | init : Reach []
  | step (st st2 : Store) : Reach st → Step st st2 → Reach st2

/-- Invariant: every assigned_admin is NULL or an allow-listed admin name. -/
def GoodStore (st : Store) : Prop :=
  ∀ t ∈ st, t.assigned_admin = none ∨ ∃ n, n ∈ ADMINS ∧ t.assigned_admin = some n

/-- Invariant: primary keys are pairwise distinct. -/
def UniqIds (st : Store) : Prop :=
  st.Pairwise fun a b => a.id ≠ b.id

/-! ### Concrete fixtures used in closed statements -/

/-- A reporter session. -/
def sessAlice : Session := { user_name := some "Alice", user_role := some "Reporter" }

/-- An admin session. -/
def sessAdmin1 : Session := { user_name := some "Admin1", user_role := some "Admin" }

/-- The empty session (both defaults apply: Alice the Reporter). -/
def sessNone : Session := { user_name := none, user_role := none }

/-- A body passing validation. -/
def bodyGood : JsonObj := [("title", "abc"), ("description", "d"), ("priority", "low")]

/-- A 121-character raw title whose trim has 120 characters. -/
def titlePadded : String := ⟨List.replicate 120 'a'⟩ ++ " "

/-- A body passing validation whose raw title has 121 characters. -/
def bodyPadded : JsonObj :=
  [("title", titlePadded), ("description", "desc"), ("priority", "low")]

/-- A body failing every validation check: title trims to 2 characters,
description trims to nothing, priority is not in the enumeration. -/
def bodyBad : JsonObj := [("title", "ab"), ("description", " "), ("priority", "urgent")]

/-- The ticket inserted by `create_ticket sessAlice bodyGood` at now=0, nextId=1. -/
def ticketGood : Ticket := newTicket sessAlice bodyGood 0 1

/-- A ticket whose assigned_admin is the empty string (not NULL). -/
def ticketEmptyAdmin : Ticket :=
  { id := 1, title := "ttt", description := "d", priority := "low", status := "open",
    reporter_name := "Alice", assigned_admin := some "",
    created_at := some 0, updated_at := some 0 }

/-- A ticket assigned to Admin2. -/
def ticketAssigned : Ticket :=
  { id := 2, title := "ttt", description := "d", priority := "low", status := "open",
    reporter_name := "Bob", assigned_admin := some "Admin2",
    created_at := some 1, updated_at := some 1 }

/-- An unassigned open ticket. -/
def ticketOpen : Ticket :=
  { id := 3, title := "ttt", description := "d", priority := "low", status := "open",
    reporter_name := "Alice", assigned_admin := none,
    created_at := some 2, updated_at := some 2 }

/-- The ticket created in the reachable two-step scenario below. -/
def ticketCreatedW : Ticket := newTicket sessNone bodyGood 0 1

/-- Store after a default-session reporter creates one ticket in an empty
database. -/
def storeW1 : Store := (create_ticket sessNone (some bodyGood) [] 0 1).store

/-- Store after Admin1 then self-assigns that ticket. -/
def storeW2 : Store := (assign_self sessAdmin1 1 storeW1 7).store

/-- The created ticket after Admin1's self-assign. -/
def ticketAfterAssignW : Ticket :=
  { ticketCreatedW with assigned_admin := some "Admin1", updated_at := some 7 }

/-! ### Helper lemmas -/

lemma string_eq_empty_of_length (s : String) (h : s.length = 0) : s = "" := by
  cases s with
  | mk l =>
    have hl : l = [] := List.length_eq_zero.mp h
    subst hl
    rfl

lemma titleErrors_of_empty (data : JsonObj)
    (h : pyStrip (jsonGetD data "title" "") = "") :
    titleErrors data = ["Title is required"] := by
  simp [titleErrors, h]

lemma titleErrors_of_bad_length (data : JsonObj)
    (h1 : ¬ pyStrip (jsonGetD data "title" "") = "")
    (h2 : (pyStrip (jsonGetD data "title" "")).length < 3 ∨
      (pyStrip (jsonGetD data "title" "")).length > 120) :
    titleErrors data = ["Title must be between 3 and 120 characters"] := by
  simp only [titleErrors]
  rw [if_neg h1, if_pos h2]

lemma titleErrors_of_good (data : JsonObj)
    (h1 : ¬ pyStrip (jsonGetD data "title" "") = "")
    (h2 : ¬ ((pyStrip (jsonGetD data "title" "")).length < 3 ∨
      (pyStrip (jsonGetD data "title" "")).length > 120)) :
    titleErrors data = [] := by
  simp only [titleErrors]
  rw [if_neg h1, if_neg h2]

lemma descriptionErrors_of_empty (data : JsonObj)
    (h : pyStrip (jsonGetD data "description" "") = "") :
    descriptionErrors data = ["Description is required"] := by
  simp [descriptionErrors, h]

lemma descriptionErrors_of_bad_length (data : JsonObj)
    (h1 : ¬ pyStrip (jsonGetD data "description" "") = "")
    (h2 : (pyStrip (jsonGetD data "description" "")).length < 1 ∨
      (pyStrip (jsonGetD data "description" "")).length > 1000) :
    descriptionErrors data = ["Description must be between 1 and 1000 characters"] := by
  simp only [descriptionErrors]
  rw [if_neg h1, if_pos h2]

lemma descriptionErrors_of_good (data : JsonObj)
    (h1 : ¬ pyStrip (jsonGetD data "description" "") = "")
    (h2 : ¬ ((pyStrip (jsonGetD data "description" "")).length < 1 ∨
      (pyStrip (jsonGetD data "description" "")).length > 1000)) :
    descriptionErrors data = [] := by
  simp only [descriptionErrors]
  rw [if_neg h1, if_neg h2]

lemma priorityErrors_of_bad (data : JsonObj)
    (h : jsonGetD data "priority" "" ∉ valid_priorities) :
    priorityErrors data = ["Priority must be one of: low, medium, high"] := by
  simp only [priorityErrors]
  rw [if_neg h]
  decide

lemma mem_titleErrors (data : JsonObj) (e : String) (h : e ∈ titleErrors data) :
    e = "Title is required" ∨ e = "Title must be between 3 and 120 characters" := by
  simp only [titleErrors] at h
  split at h
  · simp only [List.mem_singleton] at h
    exact Or.inl h
  · split at h
    · simp only [List.mem_singleton] at h
      exact Or.inr h
    · simp at h

lemma mem_descriptionErrors (data : JsonObj) (e : String) (h : e ∈ descriptionErrors data) :
    e = "Description is required" ∨ e = "Description must be between 1 and 1000 characters" := by
  simp only [descriptionErrors] at h
  split at h
  · simp only [List.mem_singleton] at h
    exact Or.inl h
  · split at h
    · simp only [List.mem_singleton] at h
      exact Or.inr h
    · simp at h

lemma mem_priorityErrors (data : JsonObj) (e : String) (h : e ∈ priorityErrors data) :
    e = "Priority must be one of: low, medium, high" := by
  simp only [priorityErrors] at h
  split at h
  · simp at h
  · simp only [List.mem_singleton] at h
    subst h
    decide

lemma titleErrors_eq_nil (data : JsonObj) (h : titleErrors data = []) :
    3 ≤ (pyStrip (jsonGetD data "title" "")).length ∧
    (pyStrip (jsonGetD data "title" "")).length ≤ 120 := by
  simp only [titleErrors] at h
  split at h
  · simp at h
  · split at h
    · simp at h
    · next hlen =>
      push_neg at hlen
      omega

lemma descriptionErrors_eq_nil (data : JsonObj) (h : descriptionErrors data = []) :
    1 ≤ (pyStrip (jsonGetD data "description" "")).length ∧
    (pyStrip (jsonGetD data "description" "")).length ≤ 1000 := by
  simp only [descriptionErrors] at h
  split at h
  · simp at h
  · split at h
    · simp at h
    · next hlen =>
      push_neg at hlen
      omega

lemma validate_eq_nil (data : JsonObj) (h : validate_ticket_data data = []) :
    titleErrors data = [] ∧ descriptionErrors data = [] ∧ priorityErrors data = [] := by
  simp only [validate_ticket_data, List.append_eq_nil] at h
  exact ⟨h.1.1, h.1.2, h.2⟩

lemma string_ne_empty_of_length (s : String) (n : Nat) (h : s.length = n)
    (hn : n ≠ 0) : s ≠ "" := by
  intro hc
  rw [hc] at h
  simp at h
  exact hn h.symm

lemma not_title_message (data : JsonObj) (e : String)
    (h : e ∈ descriptionErrors data ++ priorityErrors data) :
    e ≠ "Title is required" ∧ e ≠ "Title must be between 3 and 120 characters" := by
  rw [List.mem_append] at h
  rcases h with h | h
  · rcases mem_descriptionErrors data e h with h1 | h1 <;> subst h1 <;>
      exact ⟨by decide, by decide⟩
  · have h1 := mem_priorityErrors data e h
    subst h1
    exact ⟨by decide, by decide⟩

lemma not_description_message (data : JsonObj) (e : String)
    (h : e ∈ titleErrors data ++ priorityErrors data) :
    e ≠ "Description is required" ∧
    e ≠ "Description must be between 1 and 1000 characters" := by
  rw [List.mem_append] at h
  rcases h with h | h
  · rcases mem_titleErrors data e h with h1 | h1 <;> subst h1 <;>
      exact ⟨by decide, by decide⟩
  · have h1 := mem_priorityErrors data e h
    subst h1
    exact ⟨by decide, by decide⟩

lemma status_message_eq :
    "Status must be one of: " ++ String.intercalate ", " valid_statuses =
      "Status must be one of: open, in_progress, closed" := by
  decide

lemma mem_insertByDesc (t u : Ticket) (l : List Ticket) :
    u ∈ insertByDesc t l ↔ u = t ∨ u ∈ l := by
  induction l with
  | nil => simp [insertByDesc]
  | cons v vs ih =>
    simp only [insertByDesc]
    split
    · simp [List.mem_cons]
    · simp only [List.mem_cons, ih]
      tauto

lemma mem_sortByCreatedDesc (u : Ticket) (l : List Ticket) :
    u ∈ sortByCreatedDesc l ↔ u ∈ l := by
  induction l with
  | nil => simp [sortByCreatedDesc]
  | cons v vs ih =>
    simp [sortByCreatedDesc, mem_insertByDesc, ih, List.mem_cons]

lemma mem_get_tickets (u : Ticket) (st : Store) (sf af : String)
    (h : u ∈ get_tickets st sf af) : u ∈ st := by
  simp only [get_tickets] at h
  rw [mem_sortByCreatedDesc] at h
  split at h
  · have h2 := List.mem_of_mem_filter h
    split at h2
    · exact List.mem_of_mem_filter h2
    · exact h2
  · split at h
    · exact List.mem_of_mem_filter h
    · exact h

lemma set_role_session_cases (s : Session) (n r : Option String) :
    (set_role s n r).session = s ∨
    (∃ nm, nm ∈ REPORTERS ∧ (set_role s n r).session =
      { user_name := some nm, user_role := some "Reporter" }) ∨
    (∃ nm, nm ∈ ADMINS ∧ (set_role s n r).session =
      { user_name := some nm, user_role := some "Admin" }) := by
  unfold set_role
  split
  · next h =>
    right; left
    cases n with
    | none => simp [inAllow] at h
    | some nm => exact ⟨nm, by simpa [inAllow] using h.2, rfl⟩
  · split
    · next h =>
      right; right
      cases n with
      | none => simp [inAllow] at h
      | some nm => exact ⟨nm, by simpa [inAllow] using h.2, rfl⟩
    · split
      · exact Or.inr (Or.inr ⟨"Admin1", by decide, rfl⟩)
      · split
        · exact Or.inr (Or.inl ⟨"Alice", by decide, rfl⟩)
        · exact Or.inl rfl

lemma sessionReach_cases (s : Session) (h : SessionReach s) :
    s = { user_name := none, user_role := none } ∨
    (∃ nm, nm ∈ REPORTERS ∧ s = { user_name := some nm, user_role := some "Reporter" }) ∨
    (∃ nm, nm ∈ ADMINS ∧ s = { user_name := some nm, user_role := some "Admin" }) := by
  induction h with
  | init => exact Or.inl rfl
  | set s n r hs ih =>
    rcases set_role_session_cases s n r with h1 | h1 | h1
    · rw [h1]
      exact ih
    · exact Or.inr (Or.inl h1)
    · exact Or.inr (Or.inr h1)

lemma sessionReach_admin_name (s : Session) (h : SessionReach s)
    (hadm : is_admin s = true) : (current_user s).name ∈ ADMINS := by
  rcases sessionReach_cases s h with h1 | ⟨nm, hn, h1⟩ | ⟨nm, hn, h1⟩ <;> subst h1
  · simp [is_admin, current_user] at hadm
  · simp [is_admin, current_user] at hadm
  · simpa [current_user] using hn

lemma getTicket_mem (st : Store) (i : Nat) (t : Ticket)
    (h : getTicket st i = some t) : t ∈ st ∧ t.id = i := by
  induction st with
  | nil => simp [getTicket] at h
  | cons u us ih =>
    unfold getTicket at h
    by_cases hu : u.id = i
    · rw [if_pos hu] at h
      have hut : u = t := by simpa using h
      subst hut
      exact ⟨List.mem_cons_self _ _, hu⟩
    · rw [if_neg hu] at h
      obtain ⟨hm, hid⟩ := ih h
      exact ⟨List.mem_cons_of_mem _ hm, hid⟩

lemma getTicket_append_left (st l : Store) (i : Nat) (t : Ticket)
    (h : getTicket st i = some t) : getTicket (st ++ l) i = some t := by
  induction st with
  | nil => simp [getTicket] at h
  | cons u us ih =>
    rw [List.cons_append]
    simp only [getTicket] at h ⊢
    by_cases hu : u.id = i
    · rw [if_pos hu] at h ⊢
      exact h
    · rw [if_neg hu] at h ⊢
      exact ih h

lemma getTicket_setTicket_self (st : Store) (j : Nat) (t2 : Ticket)
    (h : t2.id = j) :
    getTicket (setTicket st j t2) j = (getTicket st j).map fun _ => t2 := by
  induction st with
  | nil => rfl
  | cons u us ih =>
    simp only [setTicket, List.map_cons]
    by_cases hu : u.id = j
    · rw [if_pos hu]
      simp only [getTicket]
      rw [if_pos h, if_pos hu]
      rfl
    · rw [if_neg hu]
      simp only [getTicket]
      rw [if_neg hu, if_neg hu]
      exact ih

lemma getTicket_setTicket_other (st : Store) (j : Nat) (t2 : Ticket)
    (h : t2.id = j) (i : Nat) (hne : i ≠ j) :
    getTicket (setTicket st j t2) i = getTicket st i := by
  induction st with
  | nil => rfl
  | cons u us ih =>
    simp only [setTicket, List.map_cons]
    by_cases hu : u.id = j
    · rw [if_pos hu]
      simp only [getTicket]
      rw [if_neg (by omega : ¬ t2.id = i), if_neg (by omega : ¬ u.id = i)]
      exact ih
    · rw [if_neg hu]
      simp only [getTicket]
      by_cases hui : u.id = i
      · rw [if_pos hui, if_pos hui]
      · rw [if_neg hui, if_neg hui]
        exact ih

lemma mem_setTicket (st : Store) (j : Nat) (t2 u : Ticket)
    (h : u ∈ setTicket st j t2) : u = t2 ∨ u ∈ st := by
  unfold setTicket at h
  rw [List.mem_map] at h
  obtain ⟨v, hv, heq⟩ := h
  by_cases hvj : v.id = j
  · rw [if_pos hvj] at heq
    exact Or.inl heq.symm
  · rw [if_neg hvj] at heq
    subst heq
    exact Or.inr hv

lemma getTicket_unique (st : Store) (hu : UniqIds st) (i : Nat) (t : Ticket)
    (h : getTicket st i = some t) (u : Ticket) (hmem : u ∈ st) (hid : u.id = i) :
    u = t := by
  induction st with
  | nil => simp at hmem
  | cons v vs ih =>
    have hpw := List.pairwise_cons.mp hu
    by_cases hv : v.id = i
    · unfold getTicket at h
      rw [if_pos hv] at h
      have hvt : v = t := by simpa using h
      rcases List.mem_cons.mp hmem with h1 | h1
      · rw [h1, hvt]
      · exfalso
        have hne := hpw.1 u h1
        rw [hv, hid] at hne
        exact hne rfl
    · unfold getTicket at h
      rw [if_neg hv] at h
      rcases List.mem_cons.mp hmem with h1 | h1
      · exfalso
        rw [h1] at hid
        exact hv hid
      · exact ih hpw.2 h h1

lemma create_store_cases (sess : Session) (body : Option JsonObj) (st : Store)
    (now nextId : Nat) :
    (create_ticket sess body st now nextId).store = st ∨
    ∃ data, (create_ticket sess body st now nextId).store =
      st ++ [newTicket sess data now nextId] := by
  by_cases hrep : is_reporter sess = true
  · cases body with
    | none => simp [create_ticket, hrep]
    | some data =>
      by_cases hne : data = []
      · simp [create_ticket, hrep, hne]
      · by_cases hval : validate_ticket_data data = []
        · exact Or.inr ⟨data, by simp [create_ticket, hrep, hne, hval]⟩
        · simp [create_ticket, hrep, hne, hval]
  · simp [create_ticket, hrep]

lemma assign_store_cases (sess : Session) (i : Nat) (st : Store) (now : Nat) :
    (assign_self sess i st now).store = st ∨
    ∃ t, getTicket st i = some t ∧ truthyStr t.assigned_admin = false ∧
      is_admin sess = true ∧
      (assign_self sess i st now).store =
        setTicket st i { t with assigned_admin := some (current_user sess).name,
                                updated_at := some now } := by
  by_cases hadm : is_admin sess = true
  · match hg : getTicket st i with
    | none => simp [assign_self, hadm, hg]
    | some t =>
      by_cases htr : truthyStr t.assigned_admin = true
      · simp [assign_self, hadm, hg, htr]
      · have htr2 : truthyStr t.assigned_admin = false := by simpa using htr
        exact Or.inr ⟨t, rfl, htr2, hadm, by simp [assign_self, hadm, hg, htr2]⟩
  · simp [assign_self, hadm]

lemma status_store_cases (sess : Session) (i : Nat) (body : Option JsonObj)
    (st : Store) (now : Nat) :
    (update_status sess i body st now).store = st ∨
    ∃ t v, getTicket st i = some t ∧
      (update_status sess i body st now).store =
        setTicket st i { t with status := v, updated_at := some now } := by
  by_cases hadm : is_admin sess = true
  · match hg : getTicket st i with
    | none => simp [update_status, hadm, hg]
    | some t =>
      cases body with
      | none => simp [update_status, hadm, hg]
      | some data =>
        by_cases hmiss : data = [] ∨ jsonHasKey data "status" = false
        · simp only [update_status, hadm]
          left
          simp [hg, hmiss]
        · by_cases hval : jsonGetD data "status" "" ∈ valid_statuses
          · refine Or.inr ⟨t, jsonGetD data "status" "", rfl, ?_⟩
            simp [update_status, hadm, hg, hmiss, hval]
          · simp [update_status, hadm, hg, hmiss, hval]
  · simp [update_status, hadm]

lemma delete_store_cases (sess : Session) (i : Nat) (st : Store) :
    (delete_ticket sess i st).store = st ∨
    (delete_ticket sess i st).store = st.filter fun u => u.id != i := by
  match hg : getTicket st i with
  | none => simp [delete_ticket, hg]
  | some t => simp [delete_ticket, hg]

lemma uniq_setTicket (st : Store) (j : Nat) (t2 : Ticket) (h2 : t2.id = j)
    (h : UniqIds st) : UniqIds (setTicket st j t2) := by
  unfold UniqIds setTicket
  refine List.Pairwise.map _ ?_ h
  intro a b hab
  by_cases ha : a.id = j <;> by_cases hb : b.id = j
  · exact absurd (ha.trans hb.symm) hab
  · rw [if_pos ha, if_neg hb, h2, ← ha]
    exact hab
  · rw [if_neg ha, if_pos hb, h2, ← hb]
    exact hab
  · rw [if_neg ha, if_neg hb]
    exact hab

lemma step_good (st st2 : Store) (hs : Step st st2) (hg : GoodStore st) :
    GoodStore st2 := by
  cases hs with
  | create sess body now nextId hsess hfresh =>
    rcases create_store_cases sess body st now nextId with hst | ⟨data, hst⟩
    · rw [hst]
      exact hg
    · rw [hst]
      intro t htm
      rcases List.mem_append.mp htm with h1 | h1
      · exact hg t h1
      · have h2 : t = newTicket sess data now nextId := by simpa using h1
        rw [h2]
        exact Or.inl rfl
  | assign sess i now hsess =>
    rcases assign_store_cases sess i st now with hst | ⟨t0, hg0, htr0, hadm, hst⟩
    · rw [hst]
      exact hg
    · rw [hst]
      intro u hu
      rcases mem_setTicket st i _ u hu with h1 | h1
      · rw [h1]
        exact Or.inr ⟨(current_user sess).name,
          sessionReach_admin_name sess hsess hadm, rfl⟩
      · exact hg u h1
  | status sess i body now hsess =>
    rcases status_store_cases sess i body st now with hst | ⟨t0, v, hg0, hst⟩
    · rw [hst]
      exact hg
    · rw [hst]
      intro u hu
      rcases mem_setTicket st i _ u hu with h1 | h1
      · rw [h1]
        exact hg t0 (getTicket_mem st i t0 hg0).1
      · exact hg u h1
  | del sess i =>
    rcases delete_store_cases sess i st with hst | hst
    · rw [hst]
      exact hg
    · rw [hst]
      intro u hu
      exact hg u (List.mem_of_mem_filter hu)

lemma step_uniq (st st2 : Store) (hs : Step st st2) (hu : UniqIds st) :
    UniqIds st2 := by
  cases hs with
  | create sess body now nextId hsess hfresh =>
    rcases create_store_cases sess body st now nextId with hst | ⟨data, hst⟩
    · rw [hst]
      exact hu
    · rw [hst]
      unfold UniqIds
      rw [List.pairwise_append]
      refine ⟨hu, List.pairwise_singleton _ _, ?_⟩
      intro a ha b hb
      have hb2 : b = newTicket sess data now nextId := by simpa using hb
      rw [hb2]
      exact hfresh a ha
  | assign sess i now hsess =>
    rcases assign_store_cases sess i st now with hst | ⟨t0, hg0, htr0, hadm, hst⟩
    · rw [hst]
      exact hu
    · rw [hst]
      exact uniq_setTicket st i _ (getTicket_mem st i t0 hg0).2 hu
  | status sess i body now hsess =>
    rcases status_store_cases sess i body st now with hst | ⟨t0, v, hg0, hst⟩
    · rw [hst]
      exact hu
    · rw [hst]
      exact uniq_setTicket st i _ (getTicket_mem st i t0 hg0).2 hu
  | del sess i =>
    rcases delete_store_cases sess i st with hst | hst
    · rw [hst]
      exact hu
    · rw [hst]
      exact List.Pairwise.sublist (List.filter_sublist _) hu

lemma reach_good (st : Store) (h : Reach st) : GoodStore st := by
  induction h with
  | init =>
    intro t ht
    simp at ht
  | step st st2 hr hs ih => exact step_good st st2 hs ih

lemma reach_uniq (st : Store) (h : Reach st) : UniqIds st := by
  induction h with
  | init => exact List.Pairwise.nil
  | step st st2 hr hs ih => exact step_uniq st st2 hs ih

lemma create_ticket_201 (sess : Session) (body : Option JsonObj) (st : Store)
    (now nextId : Nat) (h : (create_ticket sess body st now nextId).status = 201) :
    ∃ data, body = some data ∧ is_reporter sess = true ∧ ¬ data = [] ∧
      validate_ticket_data data = [] ∧
      create_ticket sess body st now nextId =
        { status := 201, errors := [], ticket := some (newTicket sess data now nextId),
          message := none, store := st ++ [newTicket sess data now nextId] } := by
  by_cases hrep : is_reporter sess = true
  · cases body with
    | none =>
      exfalso
      simp [create_ticket, hrep] at h
    | some data =>
      by_cases hne : data = []
      · exfalso
        simp [create_ticket, hrep, hne] at h
      · by_cases hval : validate_ticket_data data = []
        · exact ⟨data, rfl, hrep, hne, hval, by simp [create_ticket, hrep, hne, hval]⟩
        · exfalso
          simp [create_ticket, hrep, hne, hval] at h
  · exfalso
    simp [create_ticket, hrep] at h

/-! ### Claim theorems -/

set_option maxRecDepth 4000 in
/-- C1 (counterexample): a body whose raw title has 121 characters but whose
trimmed title has 120 passes validation, so Create returns 201 and persists
a title whose stored length is 121 — refuting the claim that the stored
title always has length at most 120 (the handler stores the raw field, the
validator measures the trimmed one). -/
theorem create_persists_overlong_title_cex :
    (create_ticket sessAlice (some bodyPadded) [] 0 1).status = 201 ∧
    ((create_ticket sessAlice (some bodyPadded) [] 0 1).ticket.map fun t => t.title.length) =
      some 121 :=
  ⟨by decide, by decide⟩

/-- C1 (amended): for every ticket accepted by Create (HTTP 201), the trimmed
stored title has length between 3 and 120 characters and the trimmed stored
description has length between 1 and 1000 characters (the raw stored strings
may carry additional leading/trailing whitespace). -/
theorem create_persists_trimmed_field_bounds (sess : Session) (body : Option JsonObj)
    (st : Store) (now nextId : Nat) (t : Ticket)
    (h201 : (create_ticket sess body st now nextId).status = 201)
    (ht : (create_ticket sess body st now nextId).ticket = some t) :
    3 ≤ (pyStrip t.title).length ∧ (pyStrip t.title).length ≤ 120 ∧
    1 ≤ (pyStrip t.description).length ∧ (pyStrip t.description).length ≤ 1000 := by
  obtain ⟨data, hb, hrep, hne, hval, heq⟩ := create_ticket_201 sess body st now nextId h201
  rw [heq] at ht
  simp only [Option.some.injEq] at ht
  subst ht
  obtain ⟨htE, hdE, hpE⟩ := validate_eq_nil data hval
  have h1 := titleErrors_eq_nil data htE
  have h2 := descriptionErrors_eq_nil data hdE
  simp only [newTicket]
  exact ⟨h1.1, h1.2, h2.1, h2.2⟩

/-- Witness: `create_persists_trimmed_field_bounds` applied to a concrete
accepted request. -/
theorem create_persists_trimmed_field_bounds_witness :
    3 ≤ (pyStrip ticketGood.title).length ∧ (pyStrip ticketGood.title).length ≤ 120 ∧
    1 ≤ (pyStrip ticketGood.description).length ∧
      (pyStrip ticketGood.description).length ≤ 1000 :=
  create_persists_trimmed_field_bounds sessAlice (some bodyGood) [] 0 1 ticketGood
    (by decide) (by decide)

/-- C4: every successful Create (HTTP 201) inserts a ticket whose
reporter_name is the acting identity's name, whose assigned_admin is NULL,
whose status is `open`, and whose created_at and updated_at are both set
to the request instant; the store afterwards is the old store plus that
ticket. -/
theorem create_success_inserted_fields (sess : Session) (body : Option JsonObj)
    (st : Store) (now nextId : Nat)
    (h201 : (create_ticket sess body st now nextId).status = 201) :
    ∃ t, (create_ticket sess body st now nextId).ticket = some t ∧
      t.reporter_name = (current_user sess).name ∧
      t.assigned_admin = none ∧
      t.status = "open" ∧
      t.created_at = some now ∧
      t.updated_at = some now ∧
      (create_ticket sess body st now nextId).store = st ++ [t] := by
  obtain ⟨data, hb, hrep, hne, hval, heq⟩ := create_ticket_201 sess body st now nextId h201
  refine ⟨newTicket sess data now nextId, ?_, rfl, rfl, rfl, rfl, rfl, ?_⟩
  · rw [heq]
  · rw [heq]

/-- Witness: `create_success_inserted_fields` at a concrete accepted request. -/
theorem create_success_inserted_fields_witness :
    ∃ t, (create_ticket sessAlice (some bodyGood) [] 0 1).ticket = some t ∧
      t.reporter_name = (current_user sessAlice).name ∧
      t.assigned_admin = none ∧
      t.status = "open" ∧
      t.created_at = some 0 ∧
      t.updated_at = some 0 ∧
      (create_ticket sessAlice (some bodyGood) [] 0 1).store = [] ++ [t] :=
  create_success_inserted_fields sessAlice (some bodyGood) [] 0 1 (by decide)

/-- C10: a Create request by a reporter whose body parses to no JSON data
returns 400 with errors exactly `['No data provided']` — none of the field
validation messages, so validation never ran — and leaves the store
unchanged. -/
theorem create_no_json_data (sess : Session) (st : Store) (now nextId : Nat)
    (h : is_reporter sess = true) :
    create_ticket sess none st now nextId =
      { status := 400, errors := ["No data provided"], ticket := none,
        message := none, store := st } := by
  simp [create_ticket, h]

/-- Witness: `create_no_json_data` at a concrete request. -/
theorem create_no_json_data_witness :
    create_ticket sessAlice none [] 0 1 =
      { status := 400, errors := ["No data provided"], ticket := none,
        message := none, store := [] } :=
  create_no_json_data sessAlice [] 0 1 (by decide)

/-- C2: setRole with an allow-listed (name, role) pair establishes exactly
that identity; with a recognized role but a name outside that role's
allow-list it establishes the canonical default identity of the requested
role (Admin1 for Admin, Alice for Reporter) without error; with an
unrecognized role it reports a validation failure and leaves the session
unchanged. -/
theorem set_role_behaviour (s : Session) (name role : String) :
    (role = "Reporter" → name ∈ REPORTERS →
      set_role s (some name) (some role) =
        { session := { user_name := some name, user_role := some "Reporter" },
          flashed_error := false }) ∧
    (role = "Admin" → name ∈ ADMINS →
      set_role s (some name) (some role) =
        { session := { user_name := some name, user_role := some "Admin" },
          flashed_error := false }) ∧
    (role = "Admin" → name ∉ ADMINS →
      set_role s (some name) (some role) =
        { session := { user_name := some "Admin1", user_role := some "Admin" },
          flashed_error := false }) ∧
    (role = "Reporter" → name ∉ REPORTERS →
      set_role s (some name) (some role) =
        { session := { user_name := some "Alice", user_role := some "Reporter" },
          flashed_error := false }) ∧
    (role ≠ "Reporter" → role ≠ "Admin" →
      set_role s (some name) (some role) = { session := s, flashed_error := true }) := by
  refine ⟨?_, ?_, ?_, ?_, ?_⟩
  · intro hr hm
    subst hr
    simp [set_role, inAllow, hm]
  · intro hr hm
    subst hr
    simp [set_role, inAllow, hm]
  · intro hr hm
    subst hr
    simp [set_role, inAllow, hm]
  · intro hr hm
    subst hr
    simp [set_role, inAllow, hm]
  · intro h1 h2
    simp [set_role, h1, h2]

/-- Witness: `set_role_behaviour` at the spec's own examples plus an
unrecognized role. -/
theorem set_role_behaviour_witness :
    set_role sessNone (some "Alice") (some "Reporter") =
      { session := { user_name := some "Alice", user_role := some "Reporter" },
        flashed_error := false } ∧
    set_role sessNone (some "Alice") (some "Admin") =
      { session := { user_name := some "Admin1", user_role := some "Admin" },
        flashed_error := false } ∧
    set_role sessNone (some "Alice") (some "Boss") =
      { session := sessNone, flashed_error := true } :=
  ⟨(set_role_behaviour sessNone "Alice" "Reporter").1 rfl (by decide),
   (set_role_behaviour sessNone "Alice" "Admin").2.2.1 rfl (by decide),
   (set_role_behaviour sessNone "Alice" "Boss").2.2.2.2 (by decide) (by decide)⟩

/-- C3: boundary behaviour of validateTicketData: a trimmed title of length
0, 2 or 121 produces a title error in the output and trimmed lengths 3 and
120 produce none; a trimmed description of length 0 or 1001 produces a
description error and trimmed lengths 1 and 1000 produce none; a priority
outside the enumeration always contributes the priority error, whatever the
other fields hold. -/
theorem validate_ticket_data_boundaries (data : JsonObj) :
    ((pyStrip (jsonGetD data "title" "")).length = 0 ∨
        (pyStrip (jsonGetD data "title" "")).length = 2 ∨
        (pyStrip (jsonGetD data "title" "")).length = 121 →
      ∃ e ∈ validate_ticket_data data,
        e = "Title is required" ∨ e = "Title must be between 3 and 120 characters") ∧
    ((pyStrip (jsonGetD data "title" "")).length = 3 ∨
        (pyStrip (jsonGetD data "title" "")).length = 120 →
      ∀ e ∈ validate_ticket_data data,
        e ≠ "Title is required" ∧ e ≠ "Title must be between 3 and 120 characters") ∧
    ((pyStrip (jsonGetD data "description" "")).length = 0 ∨
        (pyStrip (jsonGetD data "description" "")).length = 1001 →
      ∃ e ∈ validate_ticket_data data,
        e = "Description is required" ∨
        e = "Description must be between 1 and 1000 characters") ∧
    ((pyStrip (jsonGetD data "description" "")).length = 1 ∨
        (pyStrip (jsonGetD data "description" "")).length = 1000 →
      ∀ e ∈ validate_ticket_data data,
        e ≠ "Description is required" ∧
        e ≠ "Description must be between 1 and 1000 characters") ∧
    (jsonGetD data "priority" "" ∉ valid_priorities →
      "Priority must be one of: low, medium, high" ∈ validate_ticket_data data) := by
  refine ⟨?_, ?_, ?_, ?_, ?_⟩
  · intro h
    rcases h with h0 | h2 | h121
    · refine ⟨"Title is required", ?_, Or.inl rfl⟩
      have hT := titleErrors_of_empty data (string_eq_empty_of_length _ h0)
      simp [validate_ticket_data, hT]
    · refine ⟨"Title must be between 3 and 120 characters", ?_, Or.inr rfl⟩
      have hne := string_ne_empty_of_length _ _ h2 (by omega)
      have hT := titleErrors_of_bad_length data hne (Or.inl (by omega))
      simp [validate_ticket_data, hT]
    · refine ⟨"Title must be between 3 and 120 characters", ?_, Or.inr rfl⟩
      have hne := string_ne_empty_of_length _ _ h121 (by omega)
      have hT := titleErrors_of_bad_length data hne (Or.inr (by omega))
      simp [validate_ticket_data, hT]
  · intro h e he
    have hne : pyStrip (jsonGetD data "title" "") ≠ "" := by
      rcases h with h | h <;> exact string_ne_empty_of_length _ _ h (by omega)
    have hT := titleErrors_of_good data hne (by omega)
    rw [validate_ticket_data, hT, List.nil_append] at he
    exact not_title_message data e he
  · intro h
    rcases h with h0 | h1001
    · refine ⟨"Description is required", ?_, Or.inl rfl⟩
      have hD := descriptionErrors_of_empty data (string_eq_empty_of_length _ h0)
      simp [validate_ticket_data, hD]
    · refine ⟨"Description must be between 1 and 1000 characters", ?_, Or.inr rfl⟩
      have hne := string_ne_empty_of_length _ _ h1001 (by omega)
      have hD := descriptionErrors_of_bad_length data hne (Or.inr (by omega))
      simp [validate_ticket_data, hD]
  · intro h e he
    have hne : pyStrip (jsonGetD data "description" "") ≠ "" := by
      rcases h with h | h <;> exact string_ne_empty_of_length _ _ h (by omega)
    have hD := descriptionErrors_of_good data hne (by omega)
    rw [validate_ticket_data, hD] at he
    have he2 : e ∈ titleErrors data ++ priorityErrors data := by
      simpa using he
    exact not_description_message data e he2
  · intro h
    have hP := priorityErrors_of_bad data h
    simp [validate_ticket_data, hP]

/-- Witness: `validate_ticket_data_boundaries` at a body failing all three
checks and at a body passing them. -/
theorem validate_ticket_data_boundaries_witness :
    (∃ e ∈ validate_ticket_data bodyBad,
      e = "Title is required" ∨ e = "Title must be between 3 and 120 characters") ∧
    (∃ e ∈ validate_ticket_data bodyBad,
      e = "Description is required" ∨
      e = "Description must be between 1 and 1000 characters") ∧
    ("Priority must be one of: low, medium, high" ∈ validate_ticket_data bodyBad) ∧
    (∀ e ∈ validate_ticket_data bodyGood,
      e ≠ "Title is required" ∧ e ≠ "Title must be between 3 and 120 characters") ∧
    (∀ e ∈ validate_ticket_data bodyGood,
      e ≠ "Description is required" ∧
      e ≠ "Description must be between 1 and 1000 characters") :=
  ⟨(validate_ticket_data_boundaries bodyBad).1 (by decide),
   (validate_ticket_data_boundaries bodyBad).2.2.1 (by decide),
   (validate_ticket_data_boundaries bodyBad).2.2.2.2 (by decide),
   (validate_ticket_data_boundaries bodyGood).2.1 (by decide),
   (validate_ticket_data_boundaries bodyGood).2.2.2.1 (by decide)⟩

/-- C5 (counterexample): on a ticket whose assigned_admin is the non-null
empty string, Self-assign by an admin does not return 400: the truthiness
test `if ticket.assigned_admin:` treats the empty string as unassigned, so
the handler returns 200 and overwrites the field. -/
theorem assign_self_empty_string_cex :
    ticketEmptyAdmin.assigned_admin ≠ none ∧
    (assign_self sessAdmin1 1 [ticketEmptyAdmin] 5).status = 200 ∧
    ((assign_self sessAdmin1 1 [ticketEmptyAdmin] 5).store.map fun t => t.assigned_admin) =
      [some "Admin1"] :=
  ⟨by decide, by decide, by decide⟩

/-- C5 (amended): for an admin and an existing ticket, when assigned_admin
is a non-empty string Self-assign returns 400 and leaves the store (hence
the ticket) unchanged; when assigned_admin is NULL or the empty string it
is set to the acting admin's name and updated_at is refreshed. -/
theorem assign_self_behaviour (sess : Session) (i : Nat) (st : Store) (now : Nat)
    (t : Ticket) (hadm : is_admin sess = true) (hget : getTicket st i = some t) :
    ((∃ a, t.assigned_admin = some a ∧ a ≠ "") →
      assign_self sess i st now =
        { status := 400, errors := ["Ticket is already assigned"], ticket := none,
          message := none, store := st }) ∧
    ((t.assigned_admin = none ∨ t.assigned_admin = some "") →
      assign_self sess i st now =
        { status := 200, errors := [],
          ticket := some { t with assigned_admin := some (current_user sess).name,
                                  updated_at := some now },
          message := none,
          store := setTicket st i
            { t with assigned_admin := some (current_user sess).name,
                     updated_at := some now } }) := by
  constructor
  · rintro ⟨a, ha, hane⟩
    have htr : truthyStr t.assigned_admin = true := by
      rw [ha]
      simp [truthyStr, hane]
    simp [assign_self, hadm, hget, htr]
  · intro hcase
    have htr : truthyStr t.assigned_admin = false := by
      rcases hcase with h | h <;> rw [h] <;> simp [truthyStr]
    simp [assign_self, hadm, hget, htr]

/-- Witness: `assign_self_behaviour` on an assigned and on an unassigned
ticket. -/
theorem assign_self_behaviour_witness :
    assign_self sessAdmin1 2 [ticketAssigned, ticketOpen] 9 =
      { status := 400, errors := ["Ticket is already assigned"], ticket := none,
        message := none, store := [ticketAssigned, ticketOpen] } ∧
    assign_self sessAdmin1 3 [ticketAssigned, ticketOpen] 9 =
      { status := 200, errors := [],
        ticket := some { ticketOpen with assigned_admin := some "Admin1",
                                         updated_at := some 9 },
        message := none,
        store := setTicket [ticketAssigned, ticketOpen] 3
          { ticketOpen with assigned_admin := some "Admin1", updated_at := some 9 } } :=
  ⟨(assign_self_behaviour sessAdmin1 2 [ticketAssigned, ticketOpen] 9 ticketAssigned
      (by decide) (by decide)).1 ⟨"Admin2", by decide, by decide⟩,
   (assign_self_behaviour sessAdmin1 3 [ticketAssigned, ticketOpen] 9 ticketOpen
      (by decide) (by decide)).2 (Or.inl (by decide))⟩

/-- C6: for an admin and an existing ticket, Update-status with a missing
status field returns 400 and leaves the store unchanged; with a status
outside the enumeration it returns 400 and leaves the store unchanged; with
a status in the enumeration it succeeds whatever the current status is (no
transition is forbidden), setting the status and refreshing updated_at. -/
theorem update_status_behaviour (sess : Session) (i : Nat) (body : Option JsonObj)
    (st : Store) (now : Nat) (t : Ticket)
    (hadm : is_admin sess = true) (hget : getTicket st i = some t) :
    ((body = none ∨ ∃ d, body = some d ∧ jsonGet d "status" = none) →
      update_status sess i body st now =
        { status := 400, errors := ["Status is required"], ticket := none,
          message := none, store := st }) ∧
    (∀ d v, body = some d → jsonGet d "status" = some v → v ∉ valid_statuses →
      update_status sess i body st now =
        { status := 400,
          errors := ["Status must be one of: open, in_progress, closed"],
          ticket := none, message := none, store := st }) ∧
    (∀ d v, body = some d → jsonGet d "status" = some v → v ∈ valid_statuses →
      update_status sess i body st now =
        { status := 200, errors := [],
          ticket := some { t with status := v, updated_at := some now },
          message := none,
          store := setTicket st i { t with status := v, updated_at := some now } }) := by
  refine ⟨?_, ?_, ?_⟩
  · intro hmiss
    rcases hmiss with h | ⟨d, hb, hkey⟩
    · subst h
      simp [update_status, hadm, hget]
    · subst hb
      simp [update_status, hadm, hget, jsonHasKey, hkey]
  · intro d v hb hv hvnot
    subst hb
    have hd : ¬ d = [] := by
      intro hc
      rw [hc] at hv
      simp [jsonGet] at hv
    have hgd : jsonGetD d "status" "" = v := by
      rw [jsonGetD, hv]
      rfl
    simp [update_status, hadm, hget, hd, jsonHasKey, hv, hgd, hvnot, status_message_eq]
  · intro d v hb hv hvmem
    subst hb
    have hd : ¬ d = [] := by
      intro hc
      rw [hc] at hv
      simp [jsonGet] at hv
    have hgd : jsonGetD d "status" "" = v := by
      rw [jsonGetD, hv]
      rfl
    simp [update_status, hadm, hget, hd, jsonHasKey, hv, hgd, hvmem]

/-- Witness: `update_status_behaviour` with a missing status, an invalid
status, and a direct open-to-closed transition. -/
theorem update_status_behaviour_witness :
    update_status sessAdmin1 3 none [ticketOpen] 9 =
      { status := 400, errors := ["Status is required"], ticket := none,
        message := none, store := [ticketOpen] } ∧
    update_status sessAdmin1 3 (some [("status", "weird")]) [ticketOpen] 9 =
      { status := 400,
        errors := ["Status must be one of: open, in_progress, closed"],
        ticket := none, message := none, store := [ticketOpen] } ∧
    update_status sessAdmin1 3 (some [("status", "closed")]) [ticketOpen] 9 =
      { status := 200, errors := [],
        ticket := some { ticketOpen with status := "closed", updated_at := some 9 },
        message := none,
        store := setTicket [ticketOpen] 3
          { ticketOpen with status := "closed", updated_at := some 9 } } :=
  ⟨(update_status_behaviour sessAdmin1 3 none [ticketOpen] 9 ticketOpen
      (by decide) (by decide)).1 (Or.inl rfl),
   (update_status_behaviour sessAdmin1 3 (some [("status", "weird")]) [ticketOpen] 9
      ticketOpen (by decide) (by decide)).2.1 [("status", "weird")] "weird" rfl
      (by decide) (by decide),
   (update_status_behaviour sessAdmin1 3 (some [("status", "closed")]) [ticketOpen] 9
      ticketOpen (by decide) (by decide)).2.2 [("status", "closed")] "closed" rfl
      (by decide) (by decide)⟩

/-- C7: a non-admin calling Self-assign or Update-status receives 403 with
the store unmodified, and a non-reporter calling Create receives 403 with
the store unmodified — in each case the handler returns before touching the
store. -/
theorem forbidden_role_no_mutation (sess : Session) (i now nextId : Nat)
    (st : Store) (body : Option JsonObj) :
    (is_reporter sess = false →
      create_ticket sess body st now nextId =
        { status := 403, errors := ["Only reporters can create tickets"],
          ticket := none, message := none, store := st }) ∧
    (is_admin sess = false →
      assign_self sess i st now =
        { status := 403, errors := ["Only admins can assign tickets"],
          ticket := none, message := none, store := st } ∧
      update_status sess i body st now =
        { status := 403, errors := ["Only admins can update ticket status"],
          ticket := none, message := none, store := st }) := by
  constructor
  · intro h
    simp [create_ticket, h]
  · intro h
    exact ⟨by simp [assign_self, h], by simp [update_status, h]⟩

/-- Witness: `forbidden_role_no_mutation` for an admin calling Create and a
reporter calling the admin endpoints. -/
theorem forbidden_role_no_mutation_witness :
    create_ticket sessAdmin1 (some bodyGood) [ticketOpen] 0 4 =
      { status := 403, errors := ["Only reporters can create tickets"],
        ticket := none, message := none, store := [ticketOpen] } ∧
    assign_self sessAlice 3 [ticketOpen] 0 =
      { status := 403, errors := ["Only admins can assign tickets"],
        ticket := none, message := none, store := [ticketOpen] } ∧
    update_status sessAlice 3 (some [("status", "closed")]) [ticketOpen] 0 =
      { status := 403, errors := ["Only admins can update ticket status"],
        ticket := none, message := none, store := [ticketOpen] } :=
  ⟨(forbidden_role_no_mutation sessAdmin1 3 0 4 [ticketOpen] (some bodyGood)).1
      (by decide),
   ((forbidden_role_no_mutation sessAlice 3 0 4 [ticketOpen]
      (some [("status", "closed")])).2 (by decide)).1,
   ((forbidden_role_no_mutation sessAlice 3 0 4 [ticketOpen]
      (some [("status", "closed")])).2 (by decide)).2⟩

/-- C9: Delete consults no role: for every session, deleting a missing id
returns 404 with body message 'Resource not found' and an unchanged store,
and deleting an existing id returns 200 and removes the ticket, so that no
ticket returned by a subsequent List (with any filters) has that id. -/
theorem delete_ticket_behaviour (sess : Session) (i : Nat) (st : Store) :
    (getTicket st i = none →
      delete_ticket sess i st =
        { status := 404, errors := [], ticket := none,
          message := some "Resource not found", store := st }) ∧
    (getTicket st i ≠ none →
      (delete_ticket sess i st).status = 200 ∧
      (delete_ticket sess i st).message = some "Ticket deleted successfully" ∧
      ∀ sf af u, u ∈ get_tickets (delete_ticket sess i st).store sf af → u.id ≠ i) := by
  constructor
  · intro h
    simp [delete_ticket, h]
  · intro h
    match hg : getTicket st i with
    | none => exact absurd hg h
    | some t =>
      have hst : (delete_ticket sess i st).store = st.filter fun x => x.id != i := by
        simp [delete_ticket, hg]
      refine ⟨by simp [delete_ticket, hg], by simp [delete_ticket, hg], ?_⟩
      intro sf af u hu
      have hu2 : u ∈ (delete_ticket sess i st).store := mem_get_tickets u _ sf af hu
      rw [hst] at hu2
      have hp := List.of_mem_filter hu2
      simpa using hp

/-- Witness: `delete_ticket_behaviour` deleting an existing and a missing
ticket, under a reporter session. -/
theorem delete_ticket_behaviour_witness :
    delete_ticket sessAlice 4 [ticketOpen] =
      { status := 404, errors := [], ticket := none,
        message := some "Resource not found", store := [ticketOpen] } ∧
    (delete_ticket sessAlice 3 [ticketOpen]).status = 200 ∧
    (delete_ticket sessAlice 3 [ticketOpen]).message = some "Ticket deleted successfully" ∧
    ∀ sf af u, u ∈ get_tickets (delete_ticket sessAlice 3 [ticketOpen]).store sf af →
      u.id ≠ 3 :=
  ⟨(delete_ticket_behaviour sessAlice 4 [ticketOpen]).1 (by decide),
   (delete_ticket_behaviour sessAlice 3 [ticketOpen]).2 (by decide)⟩

/-- C8: along any single API operation out of a store reachable through the
API, a ticket present before and after (same id) either keeps its
assigned_admin unchanged or goes from NULL to an allow-listed admin name;
it is never reassigned to a different name nor cleared back to NULL. -/
theorem assigned_admin_monotone (st st2 : Store) (hr : Reach st) (hs : Step st st2)
    (i : Nat) (t t2 : Ticket)
    (ht : getTicket st i = some t) (ht2 : getTicket st2 i = some t2) :
    t2.assigned_admin = t.assigned_admin ∨
    (t.assigned_admin = none ∧ ∃ n, n ∈ ADMINS ∧ t2.assigned_admin = some n) := by
  have hgood := reach_good st hr
  have huniq := reach_uniq st hr
  cases hs with
  | create sess body now nextId hsess hfresh =>
    rcases create_store_cases sess body st now nextId with hst | ⟨data, hst⟩
    · rw [hst, ht] at ht2
      left
      have heq : t = t2 := by simpa using ht2
      rw [heq]
    · rw [hst, getTicket_append_left st _ i t ht] at ht2
      left
      have heq : t = t2 := by simpa using ht2
      rw [heq]
  | assign sess j now hsess =>
    rcases assign_store_cases sess j st now with hst | ⟨t0, hg0, htr0, hadm, hst⟩
    · rw [hst, ht] at ht2
      left
      have heq : t = t2 := by simpa using ht2
      rw [heq]
    · rw [hst] at ht2
      have ht0id : t0.id = j := (getTicket_mem st j t0 hg0).2
      by_cases hij : i = j
      · subst hij
        rw [getTicket_setTicket_self st i
          { t0 with assigned_admin := some (current_user sess).name,
                    updated_at := some now } ht0id, ht] at ht2
        have ht2eq : t2 = { t0 with assigned_admin := some (current_user sess).name,
                                    updated_at := some now } := by
          simpa using ht2.symm
        have h00 : t0 = t := by
          rw [hg0] at ht
          simpa using ht
        have hnone : t0.assigned_admin = none := by
          rcases hgood t0 (getTicket_mem st i t0 hg0).1 with hc | ⟨n, hn, hc⟩
          · exact hc
          · exfalso
            rw [hc] at htr0
            have hn0 : n = "" := by simpa [truthyStr] using htr0
            rw [hn0] at hn
            exact absurd hn (by decide)
        right
        constructor
        · rw [← h00]
          exact hnone
        · refine ⟨(current_user sess).name,
            sessionReach_admin_name sess hsess hadm, ?_⟩
          rw [ht2eq]
      · rw [getTicket_setTicket_other st j
          { t0 with assigned_admin := some (current_user sess).name,
                    updated_at := some now } ht0id i hij, ht] at ht2
        left
        have heq : t = t2 := by simpa using ht2
        rw [heq]
  | status sess j body now hsess =>
    rcases status_store_cases sess j body st now with hst | ⟨t0, v, hg0, hst⟩
    · rw [hst, ht] at ht2
      left
      have heq : t = t2 := by simpa using ht2
      rw [heq]
    · rw [hst] at ht2
      have ht0id : t0.id = j := (getTicket_mem st j t0 hg0).2
      by_cases hij : i = j
      · subst hij
        rw [getTicket_setTicket_self st i
          { t0 with status := v, updated_at := some now } ht0id, ht] at ht2
        have ht2eq : t2 = { t0 with status := v, updated_at := some now } := by
          simpa using ht2.symm
        have h00 : t0 = t := by
          rw [hg0] at ht
          simpa using ht
        left
        rw [ht2eq, ← h00]
      · rw [getTicket_setTicket_other st j
          { t0 with status := v, updated_at := some now } ht0id i hij, ht] at ht2
        left
        have heq : t = t2 := by simpa using ht2
        rw [heq]
  | del sess j =>
    rcases delete_store_cases sess j st with hst | hst
    · rw [hst, ht] at ht2
      left
      have heq : t = t2 := by simpa using ht2
      rw [heq]
    · rw [hst] at ht2
      have hmem2 : t2 ∈ st :=
        List.mem_of_mem_filter (getTicket_mem _ i t2 ht2).1
      have hid2 := (getTicket_mem _ i t2 ht2).2
      left
      rw [getTicket_unique st huniq i t ht t2 hmem2 hid2]

/-- Witness: `assigned_admin_monotone` across a concrete reachable
create-then-assign scenario. -/
theorem assigned_admin_monotone_witness :
    ticketAfterAssignW.assigned_admin = ticketCreatedW.assigned_admin ∨
    (ticketCreatedW.assigned_admin = none ∧
      ∃ n, n ∈ ADMINS ∧ ticketAfterAssignW.assigned_admin = some n) := by
  have hreach1 : Reach storeW1 :=
    Reach.step [] storeW1 Reach.init
      (Step.create [] sessNone (some bodyGood) 0 1 SessionReach.init (by simp))
  have hsA : SessionReach sessAdmin1 := by
    have h := SessionReach.set { user_name := none, user_role := none }
      (some "Admin1") (some "Admin") SessionReach.init
    have he : (set_role { user_name := none, user_role := none }
        (some "Admin1") (some "Admin")).session = sessAdmin1 := by decide
    rw [he] at h
    exact h
  exact assigned_admin_monotone storeW1 storeW2 hreach1
    (Step.assign storeW1 sessAdmin1 1 7 hsA) 1 ticketCreatedW ticketAfterAssignW
    (by decide) (by decide)

end TicketApp
